import Mathlib

/-!
Shallow embedding of the PromptLab backend core (in-memory storage, query
pipeline, update and cascade policies) from `src/backend/app/{models,storage,
utils,api}.py`, together with theorems settling the specification claims.

Conventions of the embedding:
* Python `dict` (insertion-ordered) becomes an association list
  `List (String × α)`; assignment updates an existing key in place and
  appends a fresh key, matching CPython semantics.
* Timestamps (`datetime`) become `Nat`; each request handler receives the
  current time `now` as a parameter (the source calls `get_current_time()`
  during request handling), and freshly generated UUIDs are likewise passed
  as a parameter `newId`.
* Stored prompt fields that Python can set to `None` at runtime (the PATCH
  path can null any field via `model_copy`) are `Option String`.
* An HTTP handler becomes a function returning the post-state of the global
  storage together with `Except ApiErr result`; raising `HTTPException`
  returns the state reached so far with `.error`.
* A Python `AttributeError` crash (calling `.lower()` on a `None` title
  inside `search_prompts`) is modelled by an `Option` result.
-/

/-- Python truthiness of `s.strip()`: `true` iff the string is empty or
whitespace-only (`models.PromptUpdateOptional.check_empty_values`). -/
def isBlank (s : String) : Bool := s.data.all Char.isWhitespace

/-- Does `needle` occur at the start of `hay` (character lists)? -/
def charsStartWith : List Char → List Char → Bool
  | [], _ => true
  | _ :: _, [] => false
  | a :: as, b :: bs => a == b && charsStartWith as bs

/-- Does `needle` occur as a contiguous run inside `hay` (character lists)?
Mirrors Python's substring operator `in`. -/
def charsHaveSub (needle : List Char) : List Char → Bool
  | [] => needle.isEmpty
  | c :: t => charsStartWith needle (c :: t) || charsHaveSub needle t

/-- Python `needle in hay` on strings (substring containment). -/
def strHasSub (needle hay : String) : Bool := charsHaveSub needle.data hay.data

/-- Python `str.lower()` (per-character lowering, as Lean's `Char.toLower`). -/
def strLower (s : String) : String := String.mk (s.data.map Char.toLower)

/-- Python truthiness of an `Optional[str]` value: `None` and `""` are falsy. -/
def strOptTruthy (v : Option String) : Bool :=
  match v with
  | some s => !(s == "")
  | none => false

/-- Lookup in an insertion-ordered dict modelled as an association list
(`d.get(k)` / `k in d`). -/
def dget {α : Type} (m : List (String × α)) (k : String) : Option α :=
  match m with
  | [] => none
  | (k', v) :: t => if k' == k then some v else dget t k

/-- Assignment `d[k] = v` on an insertion-ordered dict: replaces the value in
place when the key is present, appends otherwise. -/
def dinsert {α : Type} (m : List (String × α)) (k : String) (v : α) :
    List (String × α) :=
  match m with
  | [] => [(k, v)]
  | (k', v') :: t => if k' == k then (k, v) :: t else (k', v') :: dinsert t k v

/-- Deletion `del d[k]` on an insertion-ordered dict. -/
def derase {α : Type} (m : List (String × α)) (k : String) :
    List (String × α) :=
  m.filter (fun kv => !(kv.1 == k))

/-- `models.Prompt` as stored at runtime. `title`/`content` are declared `str`
in the Pydantic model, but a PATCH can null them through
`model_copy(update=...)`, which skips validation, so the stored value is
`Option String`. -/
structure Prompt where
  id : String
  title : Option String
  content : Option String
  description : Option String
  collection_id : Option String
  created_at : Nat
  updated_at : Nat
  deriving Repr, DecidableEq

/-- `models.Collection` as stored at runtime. -/
structure Collection where
  id : String
  name : String
  description : Option String
  created_at : Nat
  deriving Repr, DecidableEq

/-- `storage.Storage`: the two in-memory dicts. -/
structure Storage where
  prompts : List (String × Prompt)
  collections : List (String × Collection)
  deriving Repr, DecidableEq

def Storage.create_prompt (s : Storage) (p : Prompt) : Storage × Prompt :=
  ({ s with prompts := dinsert s.prompts p.id p }, p)

def Storage.get_prompt (s : Storage) (pid : String) : Option Prompt :=
  dget s.prompts pid

def Storage.get_all_prompts (s : Storage) : List Prompt :=
  s.prompts.map Prod.snd

def Storage.update_prompt (s : Storage) (pid : String) (p : Prompt) :
    Storage × Option Prompt :=
  if (dget s.prompts pid).isSome then
    ({ s with prompts := dinsert s.prompts pid p }, some p)
  else (s, none)

def Storage.delete_prompt (s : Storage) (pid : String) : Storage × Bool :=
  if (dget s.prompts pid).isSome then
    ({ s with prompts := derase s.prompts pid }, true)
  else (s, false)

def Storage.create_collection (s : Storage) (c : Collection) :
    Storage × Collection :=
  ({ s with collections := dinsert s.collections c.id c }, c)

def Storage.get_collection (s : Storage) (cid : String) : Option Collection :=
  dget s.collections cid

def Storage.get_all_collections (s : Storage) : List Collection :=
  s.collections.map Prod.snd

def Storage.delete_collection (s : Storage) (cid : String) : Storage × Bool :=
  if (dget s.collections cid).isSome then
    ({ s with collections := derase s.collections cid }, true)
  else (s, false)

def Storage.get_prompts_by_collection_id (s : Storage) (cid : String) :
    List Prompt :=
  (s.prompts.map Prod.snd).filter (fun p => p.collection_id == some cid)

/-- `utils.sort_prompts_by_date`: Python `sorted(key=created_at, reverse=desc)`
is a stable sort; with `reverse=True` elements with unequal keys are ordered
newest first while equal keys keep their input order, which is exactly a
stable merge sort under the order `b.created_at ≤ a.created_at`. -/
def sort_prompts_by_date (prompts : List Prompt) (descending : Bool := true) :
    List Prompt :=
  if descending then
    prompts.mergeSort (fun a b => decide (b.created_at ≤ a.created_at))
  else
    prompts.mergeSort (fun a b => decide (a.created_at ≤ b.created_at))

/-- `utils.filter_prompts_by_collection`. -/
def filter_prompts_by_collection (prompts : List Prompt)
    (collection_id : String) : List Prompt :=
  prompts.filter (fun p => p.collection_id == some collection_id)

/-- One prompt's search test from `utils.search_prompts`:
`query_lower in p.title.lower() or (p.description and query_lower in
p.description.lower())`; a `None` title crashes (`none`), a `None` or empty
description is falsy and never matches. -/
def promptSearchHit (query_lower : String) (p : Prompt) : Option Bool :=
  match p.title with
  | none => none
  | some t =>
    some (strHasSub query_lower (strLower t) ||
      (match p.description with
       | some d => !(d == "") && strHasSub query_lower (strLower d)
       | none => false))

/-- The list comprehension in `utils.search_prompts`, with the crash on a
`None` title propagated as `none`. -/
def searchFilter (query_lower : String) : List Prompt → Option (List Prompt)
  | [] => some []
  | p :: t =>
    match promptSearchHit query_lower p, searchFilter query_lower t with
    | some b, some l => some (if b then p :: l else l)
    | _, _ => none

/-- `utils.search_prompts`. -/
def search_prompts (prompts : List Prompt) (query : String) :
    Option (List Prompt) :=
  searchFilter (strLower query) prompts

/-- Validated `models.PromptCreate` / `models.PromptUpdate` payload. -/
structure PromptCreate where
  title : String
  content : String
  description : Option String
  collection_id : Option String
  deriving Repr, DecidableEq

/-- Pydantic validation of `PromptBase` (`title` 1..200, `content` ≥ 1,
`description` ≤ 500, `collection_id` unconstrained); `none` on a missing
required field or a violated length constraint. There is no trimming and no
whitespace check on this model. -/
def validatePromptCreate (title content description collection_id :
    Option String) : Option PromptCreate :=
  match title, content with
  | some t, some c =>
    if (decide (1 ≤ t.length) && decide (t.length ≤ 200) &&
        decide (1 ≤ c.length) &&
        (match description with
         | some d => decide (d.length ≤ 500)
         | none => true)) then
      some ⟨t, c, description, collection_id⟩
    else none
  | _, _ => none

/-- Validated `models.CollectionCreate` payload. -/
structure CollectionCreate where
  name : String
  description : Option String
  deriving Repr, DecidableEq

/-- Pydantic validation of `CollectionBase` (`name` 1..100, `description`
≤ 500). -/
def validateCollectionCreate (name description : Option String) :
    Option CollectionCreate :=
  match name with
  | some n =>
    if (decide (1 ≤ n.length) && decide (n.length ≤ 100) &&
        (match description with
         | some d => decide (d.length ≤ 500)
         | none => true)) then
      some ⟨n, description⟩
    else none
  | none => none

/-- Validated `models.PromptUpdateOptional` payload. Each field is a
tri-state: `none` = not supplied (excluded by `exclude_unset`),
`some none` = supplied as null (directly or normalized from a blank string),
`some (some s)` = supplied as the string `s`. -/
structure PromptUpdateOptional where
  title : Option (Option String)
  content : Option (Option String)
  description : Option (Option String)
  collection_id : Option (Option String)
  deriving Repr, DecidableEq

/-- The `check_empty_values` before-validator on every field of
`PromptUpdateOptional`: a blank string becomes `None`. -/
def normalizeField (v : Option String) : Option String :=
  match v with
  | some s => if isBlank s then none else some s
  | none => none

/-- Pydantic validation of `PromptUpdateOptional`: normalize each supplied
field first, then check the length constraints (skipped on `None`). -/
def validatePromptUpdateOptional (title content description collection_id :
    Option (Option String)) : Option PromptUpdateOptional :=
  let t := title.map normalizeField
  let c := content.map normalizeField
  let d := description.map normalizeField
  let ci := collection_id.map normalizeField
  if ((match t with
       | some (some s) => decide (1 ≤ s.length) && decide (s.length ≤ 200)
       | _ => true) &&
      (match c with
       | some (some s) => decide (1 ≤ s.length)
       | _ => true) &&
      (match d with
       | some (some s) => decide (s.length ≤ 500)
       | _ => true)) then
    some ⟨t, c, d, ci⟩
  else none

/-- The value Python sees for a tri-state field (`None` when unset). -/
def fieldValue (f : Option (Option String)) : Option String :=
  match f with
  | some v => v
  | none => none

/-- Errors raised by the handlers; `notFound` is HTTP 404, `badRequest` is
HTTP 400. -/
inductive ApiErr where
  | notFound (detail : String)
  | badRequest (detail : String)
  deriving Repr, DecidableEq

instance {ε α : Type} [DecidableEq ε] [DecidableEq α] :
    DecidableEq (Except ε α) := fun x y =>
  match x, y with
  | .ok a, .ok b =>
    if h : a = b then isTrue (by rw [h])
    else isFalse (by intro hc; cases hc; exact h rfl)
  | .error a, .error b =>
    if h : a = b then isTrue (by rw [h])
    else isFalse (by intro hc; cases hc; exact h rfl)
  | .ok _, .error _ => isFalse (by intro hc; cases hc)
  | .error _, .ok _ => isFalse (by intro hc; cases hc)

/-- `Prompt(**prompt_data.model_dump())`: the record built at creation; both
timestamp defaults are drawn from the same request (`now`). -/
def createdPrompt (pd : PromptCreate) (newId : String) (now : Nat) : Prompt :=
  ⟨newId, some pd.title, some pd.content, pd.description,
    pd.collection_id, now, now⟩

/-- The construct-and-store tail of `api.create_prompt`. -/
def api.createStore (s : Storage) (pd : PromptCreate) (newId : String)
    (now : Nat) : Storage × Except ApiErr Prompt :=
  ((Storage.create_prompt s (createdPrompt pd newId now)).1,
   .ok (createdPrompt pd newId now))

/-- `api.create_prompt`: when `collection_id` is truthy it must name a stored
collection (else 400); then build and store the prompt. -/
def api.create_prompt (s : Storage) (pd : PromptCreate) (newId : String)
    (now : Nat) : Storage × Except ApiErr Prompt :=
  if strOptTruthy pd.collection_id then
    if (Storage.get_collection s (pd.collection_id.getD (""))).isSome then
      api.createStore s pd newId now
    else (s, .error (.badRequest ("Collection not found")))
  else api.createStore s pd newId now

/-- `api.get_prompt`. -/
def api.get_prompt (s : Storage) (pid : String) : Except ApiErr Prompt :=
  match Storage.get_prompt s pid with
  | none => .error (.notFound ("Prompt not found"))
  | some p => .ok p

/-- `api.list_prompts`: collection filter (when the parameter is truthy),
then search (when truthy), then descending date sort. -/
def api.list_prompts (s : Storage) (collection_id search : Option String) :
    Option (List Prompt) :=
  let prompts := Storage.get_all_prompts s
  let prompts :=
    if strOptTruthy collection_id then
      filter_prompts_by_collection prompts (collection_id.getD (""))
    else prompts
  match
    (if strOptTruthy search then search_prompts prompts (search.getD (""))
     else some prompts) with
  | none => none
  | some res => some (sort_prompts_by_date res true)

/-- The full-replace record of `api.update_prompt` (PUT): carries over `id`
and `created_at`, always takes `updated_at := now`. -/
def replacedPrompt (existing : Prompt) (pd : PromptCreate) (now : Nat) :
    Prompt :=
  ⟨existing.id, some pd.title, some pd.content, pd.description,
    pd.collection_id, existing.created_at, now⟩

/-- The replace-and-store tail of `api.update_prompt`. -/
def api.updateStore (s : Storage) (pid : String) (existing : Prompt)
    (pd : PromptCreate) (now : Nat) : Storage × Except ApiErr Prompt :=
  ((Storage.update_prompt s pid (replacedPrompt existing pd now)).1,
   .ok ((Storage.update_prompt s pid
      (replacedPrompt existing pd now)).2.getD (replacedPrompt existing pd now)))

/-- `api.update_prompt` (PUT): 404 check, truthy `collection_id` check, then
full replace. -/
def api.update_prompt (s : Storage) (pid : String) (pd : PromptCreate)
    (now : Nat) : Storage × Except ApiErr Prompt :=
  match Storage.get_prompt s pid with
  | none => (s, .error (.notFound ("Prompt not found")))
  | some existing =>
    if strOptTruthy pd.collection_id then
      if (Storage.get_collection s (pd.collection_id.getD (""))).isSome then
        api.updateStore s pid existing pd now
      else (s, .error (.badRequest ("Collection not found")))
    else api.updateStore s pid existing pd now

/-- The merge applied by `api.patch_prompt`: `model_copy(update=
exclude_unset fields)`; `updated_at` is set to `now` whenever at least one
field was supplied (changed or not), and the record is returned untouched
when the field set is empty. -/
def patchMerge (existing : Prompt) (pd : PromptUpdateOptional) (now : Nat) :
    Prompt :=
  let hasSet := pd.title.isSome || pd.content.isSome ||
    pd.description.isSome || pd.collection_id.isSome
  if hasSet then
    { existing with
      title := (match pd.title with
        | some v => v
        | none => existing.title),
      content := (match pd.content with
        | some v => v
        | none => existing.content),
      description := (match pd.description with
        | some v => v
        | none => existing.description),
      collection_id := (match pd.collection_id with
        | some v => v
        | none => existing.collection_id),
      updated_at := now }
  else existing

/-- The merge-and-store tail of `api.patch_prompt`. -/
def patchApply (s : Storage) (pid : String) (existing : Prompt)
    (pd : PromptUpdateOptional) (now : Nat) :
    Storage × Except ApiErr Prompt :=
  ((Storage.update_prompt s pid (patchMerge existing pd now)).1,
   .ok ((Storage.update_prompt s pid
      (patchMerge existing pd now)).2.getD (patchMerge existing pd now)))

/-- `api.patch_prompt` (PATCH): 404 check, truthy `collection_id` check, then
`model_copy(update=exclude_unset fields)` — `updated_at` is bumped whenever
at least one field was supplied, changed or not — and store. -/
def api.patch_prompt (s : Storage) (pid : String) (pd : PromptUpdateOptional)
    (now : Nat) : Storage × Except ApiErr Prompt :=
  match Storage.get_prompt s pid with
  | none => (s, .error (.notFound ("Prompt not found")))
  | some existing =>
    if strOptTruthy (fieldValue pd.collection_id) then
      if (Storage.get_collection s
          ((fieldValue pd.collection_id).getD (""))).isSome then
        patchApply s pid existing pd now
      else (s, .error (.badRequest ("Collection not found")))
    else patchApply s pid existing pd now

/-- `api.delete_prompt`. -/
def api.delete_prompt (s : Storage) (pid : String) :
    Storage × Except ApiErr Unit :=
  let r := Storage.delete_prompt s pid
  if r.2 then (r.1, .ok ()) else (r.1, .error (.notFound ("Prompt not found")))

/-- `api.create_collection`. -/
def api.create_collection (s : Storage) (cd : CollectionCreate)
    (newId : String) (now : Nat) : Storage × Collection :=
  let c : Collection := ⟨newId, cd.name, cd.description, now⟩
  ((Storage.create_collection s c).1, c)

/-- `api.get_collection`. -/
def api.get_collection (s : Storage) (cid : String) : Except ApiErr Collection :=
  match Storage.get_collection s cid with
  | none => .error (.notFound ("Collection not found"))
  | some c => .ok c

/-- The prompt-deletion loop inside `api.delete_collection`. -/
def deletePromptsLoop (s : Storage) (ps : List Prompt) : Storage :=
  ps.foldl (fun st p => (Storage.delete_prompt st p.id).1) s

/-- `api.delete_collection`: deletes every prompt of the collection FIRST and
only then checks whether the collection exists (404 after the prompt
deletions have already mutated storage). -/
def api.delete_collection (s : Storage) (cid : String) :
    Storage × Except ApiErr Unit :=
  let ps := Storage.get_prompts_by_collection_id s cid
  let s1 := deletePromptsLoop s ps
  let r := Storage.delete_collection s1 cid
  if r.2 then (r.1, .ok ())
  else (r.1, .error (.notFound ("Collection not found")))

/-- Well-formedness of one entity map: keys are distinct and every entry is
keyed by its value's own `id`. -/
def MapKeyedById {α : Type} (idOf : α → String)
    (m : List (String × α)) : Prop :=
  (m.map Prod.fst).Nodup ∧ ∀ kv ∈ m, idOf kv.2 = kv.1

/-- The storage invariant of claim C10. -/
def StorageInv (s : Storage) : Prop :=
  MapKeyedById Prompt.id s.prompts ∧ MapKeyedById Collection.id s.collections

instance {α : Type} (idOf : α → String) (m : List (String × α)) :
    Decidable (MapKeyedById idOf m) := by
  unfold MapKeyedById; infer_instance

instance (s : Storage) : Decidable (StorageInv s) := by
  unfold StorageInv; infer_instance

/-! ### Concrete instances used by counterexamples and witnesses -/

/-- A prompt whose `collection_id` is the empty string; creatable through
`POST /prompts` because `if prompt_data.collection_id:` is false for `""`. -/
def promptDangling : Prompt :=
  ⟨("p1"), some ("T"), some ("Body"), none, some (""), 0, 0⟩

/-- Storage holding only `promptDangling`; no collections exist. -/
def storageDangling : Storage := ⟨[(("p1"), promptDangling)], []⟩

/-- A create payload carrying `collection_id = ""`. -/
def payloadEmptyCid : PromptCreate := ⟨("t"), ("c"), none, some ("")⟩

/-- A create payload carrying a nonexistent, non-empty `collection_id`. -/
def payloadBadCid : PromptCreate := ⟨("t"), ("c"), none, some ("zz")⟩

/-- A plain create payload with no collection. -/
def payloadPlain : PromptCreate := ⟨("t"), ("c"), none, none⟩

/-- A stored prompt used by the PATCH scenarios. -/
def promptT : Prompt := ⟨("p1"), some ("T"), some ("Body"), none, none, 0, 0⟩

/-- Storage holding only `promptT`. -/
def storageT : Storage := ⟨[(("p1"), promptT)], []⟩

/-- A PATCH payload resending the stored title unchanged. -/
def patchSameTitle : PromptUpdateOptional := ⟨some (some ("T")), none, none, none⟩

/-- A PATCH payload with an empty field set. -/
def patchEmpty : PromptUpdateOptional := ⟨none, none, none, none⟩

/-- A PATCH payload whose title was supplied blank and normalized to null. -/
def patchNullTitle : PromptUpdateOptional := ⟨some none, none, none, none⟩

/-- A 200-character title (the accepted boundary). -/
def title200 : String := String.mk (List.replicate 200 ('a'))

/-- A 201-character title (the rejected boundary). -/
def title201 : String := String.mk (List.replicate 201 ('a'))

/-- A 100-character collection name (the accepted boundary). -/
def name100 : String := String.mk (List.replicate 100 ('a'))

/-- A 101-character collection name (the rejected boundary). -/
def name101 : String := String.mk (List.replicate 101 ('a'))

/-- Prompt titled Python Search, in collection C. -/
def promptPythonSearch : Prompt :=
  ⟨("p1"), some ("Python Search"), some ("x"), none, some ("C"), 2, 2⟩

/-- Prompt titled JavaScript Search, in collection C. -/
def promptJsSearch : Prompt :=
  ⟨("p2"), some ("JavaScript Search"), some ("x"), none, some ("C"), 1, 1⟩

/-- Uncollected prompt titled Python Other. -/
def promptPythonOther : Prompt :=
  ⟨("p3"), some ("Python Other"), some ("x"), none, none, 0, 0⟩

/-- The filter-composition scenario storage of claim C7. -/
def storageDemo : Storage :=
  ⟨[(("p1"), promptPythonSearch), (("p2"), promptJsSearch),
    (("p3"), promptPythonOther)],
   [(("C"), ⟨("C"), ("Col"), none, 0⟩)]⟩

/-- An uncollected prompt for the empty-string-filter counterexample. -/
def promptUncollected : Prompt := ⟨("p1"), some ("A"), some ("x"), none, none, 0, 0⟩

/-- Storage holding only `promptUncollected`. -/
def storageUncollected : Storage := ⟨[(("p1"), promptUncollected)], []⟩

/-- Older prompt (created at 0) for the sort witness. -/
def promptOld : Prompt := ⟨("a"), some ("A"), some ("x"), none, none, 0, 0⟩

/-- Newer prompt (created at 1) for the sort witness. -/
def promptNew : Prompt := ⟨("b"), some ("B"), some ("x"), none, none, 1, 1⟩

/-- A prompt inside collection c, for the cascade witness. -/
def promptInC : Prompt :=
  ⟨("p1"), some ("In"), some ("x"), none, some ("c"), 0, 0⟩

/-- A prompt outside collection c, for the cascade witness. -/
def promptOutC : Prompt := ⟨("p2"), some ("Out"), some ("x"), none, none, 0, 0⟩

/-- The collection c of the cascade witness. -/
def collectionC : Collection := ⟨("c"), ("Col"), none, 0⟩

/-- Cascade-delete witness storage: collection c, one prompt in it, one
outside it. -/
def storageCascade : Storage :=
  ⟨[(("p1"), promptInC), (("p2"), promptOutC)], [(("c"), collectionC)]⟩

/-! ### Dictionary lemmas -/

theorem dget_dinsert_self {α : Type} (m : List (String × α)) (k : String)
    (v : α) : dget (dinsert m k v) k = some v := by
  induction m with
  | nil => simp [dinsert, dget]
  | cons hd t ih =>
    obtain ⟨k', v'⟩ := hd
    by_cases h : (k' == k) = true
    · simp [dinsert, h, dget]
    · simp [dinsert, h, dget, ih]

theorem mem_of_dget_eq_some {α : Type} {m : List (String × α)} {k : String}
    {v : α} (h : dget m k = some v) : (k, v) ∈ m := by
  induction m with
  | nil => simp [dget] at h
  | cons hd t ih =>
    obtain ⟨k', v'⟩ := hd
    by_cases hk : (k' == k) = true
    · have hkeq : k' = k := by simpa using hk
      simp [dget, hk] at h
      subst hkeq
      subst h
      exact List.mem_cons_self _ _
    · simp [dget, hk] at h
      exact List.mem_cons_of_mem _ (ih h)

theorem dget_none_forall {α : Type} {m : List (String × α)} {k : String}
    (h : dget m k = none) : ∀ kv ∈ m, (kv.1 == k) = false := by
  induction m with
  | nil => intro kv hkv; simp at hkv
  | cons hd t ih =>
    obtain ⟨k', v'⟩ := hd
    by_cases hk : (k' == k) = true
    · simp [dget, hk] at h
    · simp [dget, hk] at h
      intro kv hkv
      rcases List.mem_cons.mp hkv with rfl | hm
      · simpa using hk
      · exact ih h kv hm

theorem isSome_dget_of_mem_keys {α : Type} {m : List (String × α)}
    {k : String} (h : k ∈ m.map Prod.fst) : (dget m k).isSome = true := by
  cases hd : dget m k with
  | some v => rfl
  | none =>
    obtain ⟨kv, hmem, hfst⟩ := List.mem_map.mp h
    have hf := dget_none_forall hd kv hmem
    rw [hfst] at hf
    simp at hf

theorem mem_dinsert {α : Type} {m : List (String × α)} {k : String} {v : α}
    {kv : String × α} (h : kv ∈ dinsert m k v) : kv = (k, v) ∨ kv ∈ m := by
  induction m with
  | nil => simpa [dinsert] using h
  | cons hd t ih =>
    obtain ⟨k', v'⟩ := hd
    by_cases hk : (k' == k) = true
    · simp [dinsert, hk] at h
      rcases h with rfl | hm
      · exact Or.inl rfl
      · exact Or.inr (List.mem_cons_of_mem _ hm)
    · simp [dinsert, hk] at h
      rcases h with rfl | hm
      · exact Or.inr (List.mem_cons_self _ _)
      · rcases ih hm with h1 | h2
        · exact Or.inl h1
        · exact Or.inr (List.mem_cons_of_mem _ h2)

theorem keys_dinsert {α : Type} (m : List (String × α)) (k : String) (v : α) :
    (dinsert m k v).map Prod.fst =
      if (dget m k).isSome then m.map Prod.fst else m.map Prod.fst ++ [k] := by
  induction m with
  | nil => simp [dinsert, dget]
  | cons hd t ih =>
    obtain ⟨k', v'⟩ := hd
    by_cases hk : (k' == k) = true
    · have hkeq : k' = k := by simpa using hk
      subst hkeq
      simp [dinsert, hk, dget]
    · simp only [dinsert, hk, dget, if_neg, Bool.false_eq_true, if_false,
        List.map_cons]
      rw [ih]
      by_cases hs : (dget t k).isSome = true <;> simp [hs]

theorem nodup_keys_dinsert {α : Type} {m : List (String × α)} {k : String}
    {v : α} (h : (m.map Prod.fst).Nodup) :
    ((dinsert m k v).map Prod.fst).Nodup := by
  rw [keys_dinsert]
  split
  · exact h
  · rename_i hns
    have hk : k ∉ m.map Prod.fst := by
      intro hmem
      exact hns (isSome_dget_of_mem_keys hmem)
    simp [List.nodup_append, h, hk]

theorem mapKeyedById_dinsert {α : Type} {idOf : α → String}
    {m : List (String × α)} {k : String} {v : α}
    (h : MapKeyedById idOf m) (hid : idOf v = k) :
    MapKeyedById idOf (dinsert m k v) := by
  refine ⟨nodup_keys_dinsert h.1, ?_⟩
  intro kv hkv
  rcases mem_dinsert hkv with rfl | hm
  · simpa using hid
  · exact h.2 kv hm

theorem mapKeyedById_filter {α : Type} {idOf : α → String}
    {m : List (String × α)} (pred : String × α → Bool)
    (h : MapKeyedById idOf m) : MapKeyedById idOf (m.filter pred) := by
  refine ⟨?_, fun kv hkv => h.2 kv (List.mem_of_mem_filter hkv)⟩
  exact List.Nodup.sublist (List.Sublist.map _ (List.filter_sublist m)) h.1

theorem mapKeyedById_derase {α : Type} {idOf : α → String}
    {m : List (String × α)} (k : String) (h : MapKeyedById idOf m) :
    MapKeyedById idOf (derase m k) :=
  mapKeyedById_filter _ h

theorem dget_derase_self {α : Type} (m : List (String × α)) (k : String) :
    dget (derase m k) k = none := by
  cases hd : dget (derase m k) k with
  | none => rfl
  | some v =>
    have hmem := mem_of_dget_eq_some hd
    have := List.of_mem_filter hmem
    simp at this

theorem dget_filter {α : Type} {m : List (String × α)}
    (pred : String × α → Bool) (hnd : (m.map Prod.fst).Nodup) (k : String) :
    dget (m.filter pred) k =
      match dget m k with
      | some v => if pred (k, v) then some v else none
      | none => none := by
  induction m with
  | nil => simp [dget]
  | cons hd t ih =>
    obtain ⟨k', v'⟩ := hd
    have hnd' : (t.map Prod.fst).Nodup := (List.nodup_cons.mp hnd).2
    have hknot : k' ∉ t.map Prod.fst := by
      simpa using (List.nodup_cons.mp hnd).1
    by_cases hk : (k' == k) = true
    · have hkeq : k' = k := by simpa using hk
      subst hkeq
      have htnone : dget t k' = none := by
        cases hdg : dget t k' with
        | none => rfl
        | some w =>
          exact absurd (List.mem_map.mpr ⟨(k', w), mem_of_dget_eq_some hdg, rfl⟩)
            hknot
      have hfnone : dget (t.filter pred) k' = none := by
        cases hdg : dget (t.filter pred) k' with
        | none => rfl
        | some w =>
          have hmem := List.mem_of_mem_filter (mem_of_dget_eq_some hdg)
          exact absurd (List.mem_map.mpr ⟨(k', w), hmem, rfl⟩) hknot
      by_cases hp : pred (k', v') = true
      · simp [List.filter_cons, hp, dget, hk]
      · simp [List.filter_cons, hp, dget, hfnone]
    · by_cases hp : pred (k', v') = true
      · simp [List.filter_cons, hp, dget, hk, ih hnd']
      · simp [List.filter_cons, hp, dget, hk, ih hnd']

/-! ### The cascade-delete loop -/

theorem delete_prompt_state (st : Storage) (k : String) :
    (Storage.delete_prompt st k).1 =
      { st with prompts := derase st.prompts k } := by
  unfold Storage.delete_prompt
  split
  · rfl
  · rename_i h
    have hnone : dget st.prompts k = none := by
      cases hd : dget st.prompts k with
      | none => rfl
      | some v => rw [hd] at h; simp at h
    have hid : derase st.prompts k = st.prompts := by
      unfold derase
      apply List.filter_eq_self.mpr
      intro kv hkv
      simp [dget_none_forall hnone kv hkv]
    simp [hid]

theorem deletePromptsLoop_state (ps : List Prompt) (s : Storage) :
    deletePromptsLoop s ps =
      { s with prompts := List.foldl derase s.prompts (ps.map Prompt.id) } := by
  induction ps generalizing s with
  | nil => simp [deletePromptsLoop]
  | cons p t ih =>
    have h1 : deletePromptsLoop s (p :: t) =
        deletePromptsLoop (Storage.delete_prompt s p.id).1 t := by
      simp [deletePromptsLoop]
    rw [h1, delete_prompt_state, ih]
    simp

theorem foldl_derase_filter {α : Type} (ids : List String)
    (m : List (String × α)) :
    List.foldl derase m ids = m.filter (fun kv => !(ids.contains kv.1)) := by
  induction ids generalizing m with
  | nil => simp
  | cons k I ih =>
    rw [List.foldl_cons, ih, derase, List.filter_filter]
    apply List.filter_congr
    intro kv _
    simp only [List.contains_cons, Bool.not_or]
    rw [Bool.and_comm]

theorem mem_unique_of_nodup_keys {α : Type} {m : List (String × α)}
    (hnd : (m.map Prod.fst).Nodup) {kv kv' : String × α}
    (h1 : kv ∈ m) (h2 : kv' ∈ m) (hk : kv.1 = kv'.1) : kv = kv' := by
  induction m with
  | nil => simp at h1
  | cons hd t ih =>
    have hnd' : (hd.1 :: t.map Prod.fst).Nodup := by
      rw [List.map_cons] at hnd; exact hnd
    have hnc := List.nodup_cons.mp hnd'
    rcases List.mem_cons.mp h1 with rfl | hm1 <;>
      rcases List.mem_cons.mp h2 with rfl | hm2
    · rfl
    · exact absurd (List.mem_map.mpr ⟨kv', hm2, hk.symm⟩) hnc.1
    · exact absurd (List.mem_map.mpr ⟨kv, hm1, hk⟩) hnc.1
    · exact ih hnc.2 hm1 hm2

theorem contains_del_ids {m : List (String × Prompt)}
    (hInv : MapKeyedById Prompt.id m) (C : String) {kv : String × Prompt}
    (hkv : kv ∈ m) :
    (((m.map Prod.snd).filter
        (fun p => p.collection_id == some C)).map Prompt.id).contains kv.1
      = (kv.2.collection_id == some C) := by
  by_cases hc : (kv.2.collection_id == some C) = true
  · rw [hc]
    apply List.elem_iff.mpr
    refine List.mem_map.mpr ⟨kv.2, List.mem_filter.mpr ⟨?_, hc⟩, hInv.2 kv hkv⟩
    exact List.mem_map.mpr ⟨kv, hkv, rfl⟩
  · rw [Bool.eq_false_iff.mpr hc]
    apply Bool.eq_false_iff.mpr
    intro htrue
    obtain ⟨p, hpf, hpid⟩ := List.mem_map.mp (List.elem_iff.mp htrue)
    obtain ⟨hpm, hpc⟩ := List.mem_filter.mp hpf
    obtain ⟨kv', hkv', hsnd⟩ := List.mem_map.mp hpm
    have hkeq : kv'.1 = kv.1 := by rw [← hInv.2 kv' hkv', hsnd, hpid]
    have : kv' = kv := mem_unique_of_nodup_keys hInv.1 hkv' hkv hkeq
    subst this
    rw [← hsnd] at hpc
    exact hc hpc

theorem delete_collection_state (s : Storage) (C : String)
    (hInv : MapKeyedById Prompt.id s.prompts) :
    (api.delete_collection s C).1.prompts =
      s.prompts.filter (fun kv => !(kv.2.collection_id == some C)) ∧
    (api.delete_collection s C).1.collections = derase s.collections C ∧
    ((api.delete_collection s C).2 = .ok () ↔
      (dget s.collections C).isSome = true) := by
  have hloop : deletePromptsLoop s (Storage.get_prompts_by_collection_id s C) =
      { s with prompts := (s.prompts.filter
          (fun kv => !(kv.2.collection_id == some C))) } := by
    rw [deletePromptsLoop_state, foldl_derase_filter]
    congr 1
    apply List.filter_congr
    intro kv hkv
    unfold Storage.get_prompts_by_collection_id
    rw [contains_del_ids hInv C hkv]
  have hid : ¬((dget s.collections C).isSome = true) →
      derase s.collections C = s.collections := by
    intro hc
    have hnone : dget s.collections C = none := by
      cases hd : dget s.collections C with
      | none => rfl
      | some v => rw [hd] at hc; simp at hc
    unfold derase
    apply List.filter_eq_self.mpr
    intro kv hkv
    simp [dget_none_forall hnone kv hkv]
  unfold api.delete_collection
  simp only [hloop]
  unfold Storage.delete_collection
  by_cases hc : (dget s.collections C).isSome = true
  · simp [hc]
  · simp [hc, hid hc]

/-! ### Merge, search and sort lemmas -/

theorem patchMerge_id (e : Prompt) (pd : PromptUpdateOptional) (now : Nat) :
    (patchMerge e pd now).id = e.id := by
  simp only [patchMerge]
  split <;> rfl

theorem patchMerge_created_at (e : Prompt) (pd : PromptUpdateOptional)
    (now : Nat) : (patchMerge e pd now).created_at = e.created_at := by
  simp only [patchMerge]
  split <;> rfl

theorem searchFilter_mem {ql : String} {ps res : List Prompt}
    (h : searchFilter ql ps = some res) {p : Prompt} (hp : p ∈ res) :
    p ∈ ps ∧ promptSearchHit ql p = some true := by
  induction ps generalizing res with
  | nil =>
    simp [searchFilter] at h
    subst h
    simp at hp
  | cons q t ih =>
    unfold searchFilter at h
    cases hh : promptSearchHit ql q with
    | none => rw [hh] at h; simp at h
    | some b =>
      cases ht : searchFilter ql t with
      | none => rw [hh, ht] at h; simp at h
      | some l =>
        rw [hh, ht] at h
        simp only [Option.some.injEq] at h
        subst h
        cases b with
        | true =>
          rcases List.mem_cons.mp hp with rfl | hl
          · exact ⟨List.mem_cons_self _ _, hh⟩
          · obtain ⟨h1, h2⟩ := ih ht hl
            exact ⟨List.mem_cons_of_mem _ h1, h2⟩
        | false =>
          simp only [if_false, Bool.false_eq_true] at hp
          obtain ⟨h1, h2⟩ := ih ht hp
          exact ⟨List.mem_cons_of_mem _ h1, h2⟩

theorem sortLe_trans (a b c : Prompt)
    (h1 : decide (b.created_at ≤ a.created_at) = true)
    (h2 : decide (c.created_at ≤ b.created_at) = true) :
    decide (c.created_at ≤ a.created_at) = true := by
  simp only [decide_eq_true_eq] at *
  exact Nat.le_trans h2 h1

theorem sortLe_total (a b : Prompt) :
    (decide (b.created_at ≤ a.created_at) ||
     decide (a.created_at ≤ b.created_at)) = true := by
  rcases Nat.le_total a.created_at b.created_at with h | h <;> simp [h]

theorem sort_desc_eq (ps : List Prompt) :
    sort_prompts_by_date ps true =
      ps.mergeSort (fun a b => decide (b.created_at ≤ a.created_at)) := by
  simp [sort_prompts_by_date]

theorem sort_desc_perm (ps : List Prompt) :
    (sort_prompts_by_date ps true).Perm ps := by
  rw [sort_desc_eq]
  exact List.mergeSort_perm ps _

theorem sort_desc_pairwise (ps : List Prompt) :
    (sort_prompts_by_date ps true).Pairwise
      (fun a b => b.created_at ≤ a.created_at) := by
  rw [sort_desc_eq]
  have h := @List.sorted_mergeSort Prompt
    (fun a b => decide (b.created_at ≤ a.created_at))
    (fun a b c => sortLe_trans a b c) (fun a b => sortLe_total a b) ps
  exact h.imp (fun hab => by simpa using hab)

theorem sort_desc_filter_created_at (ps : List Prompt) (t : Nat) :
    (sort_prompts_by_date ps true).filter (fun p => p.created_at == t) =
      ps.filter (fun p => p.created_at == t) := by
  rw [sort_desc_eq]
  have htrans := fun a b c : Prompt => sortLe_trans a b c
  have htotal := fun a b : Prompt => sortLe_total a b
  have hpair : (ps.filter (fun p => p.created_at == t)).Pairwise
      (fun a b => (decide (b.created_at ≤ a.created_at)) = true) := by
    apply List.pairwise_of_forall_mem_list
    intro a ha b hb
    have ha' : a.created_at = t := by simpa using (List.mem_filter.mp ha).2
    have hb' : b.created_at = t := by simpa using (List.mem_filter.mp hb).2
    simp [ha', hb']
  have hsub : (ps.filter (fun p => p.created_at == t)).Sublist
      (ps.mergeSort (fun a b => decide (b.created_at ≤ a.created_at))) :=
    List.sublist_mergeSort htrans htotal hpair (List.filter_sublist ps)
  have hsub2 : (ps.filter (fun p => p.created_at == t)).Sublist
      ((ps.mergeSort (fun a b => decide (b.created_at ≤ a.created_at))).filter
        (fun p => p.created_at == t)) := by
    have : List.filter (fun p => p.created_at == t)
        (ps.filter (fun p => p.created_at == t)) =
        ps.filter (fun p => p.created_at == t) := by
      apply List.filter_eq_self.mpr
      intro a ha
      exact (List.mem_filter.mp ha).2
    have h3 := List.Sublist.filter (fun p => p.created_at == t) hsub
    rwa [this] at h3
  have hlen : ((ps.mergeSort
      (fun a b => decide (b.created_at ≤ a.created_at))).filter
        (fun p => p.created_at == t)).length =
      (ps.filter (fun p => p.created_at == t)).length :=
    ((List.mergeSort_perm ps _).filter _).length_eq
  exact (hsub2.eq_of_length hlen.symm).symm

/-! ### Characterizations of the write handlers -/

theorem update_prompt_of_get_some {s : Storage} {pid : String}
    {existing : Prompt} (hget : Storage.get_prompt s pid = some existing)
    (q : Prompt) :
    Storage.update_prompt s pid q =
      ({ s with prompts := dinsert s.prompts pid q }, some q) := by
  unfold Storage.get_prompt at hget
  unfold Storage.update_prompt
  simp [hget]

theorem patchApply_of_get_some {s : Storage} {pid : String}
    {existing : Prompt} (hget : Storage.get_prompt s pid = some existing)
    (pd : PromptUpdateOptional) (now : Nat) :
    patchApply s pid existing pd now =
      ({ s with prompts := dinsert s.prompts pid (patchMerge existing pd now) },
       .ok (patchMerge existing pd now)) := by
  unfold patchApply
  rw [update_prompt_of_get_some hget]
  rfl

theorem createStore_inv {s : Storage} {pd : PromptCreate} {nid : String}
    {now : Nat} {s' : Storage} {p : Prompt}
    (h : api.createStore s pd nid now = (s', .ok p)) :
    p = createdPrompt pd nid now ∧
    s' = { s with prompts := dinsert s.prompts nid p } := by
  unfold api.createStore Storage.create_prompt at h
  have h1 := congrArg Prod.fst h
  have h2 := congrArg Prod.snd h
  simp only [Except.ok.injEq] at h2
  subst h2
  simp only at h1
  exact ⟨rfl, h1.symm⟩

theorem create_prompt_ok {s : Storage} {pd : PromptCreate} {nid : String}
    {now : Nat} {s' : Storage} {p : Prompt}
    (h : api.create_prompt s pd nid now = (s', .ok p)) :
    p = createdPrompt pd nid now ∧
    s' = { s with prompts := dinsert s.prompts nid p } := by
  unfold api.create_prompt at h
  by_cases h1 : strOptTruthy pd.collection_id = true
  · rw [if_pos h1] at h
    by_cases h2 : (Storage.get_collection s (pd.collection_id.getD (""))).isSome = true
    · rw [if_pos h2] at h
      exact createStore_inv h
    · rw [if_neg h2] at h
      have := congrArg Prod.snd h
      simp at this
  · rw [if_neg h1] at h
    exact createStore_inv h

theorem updateStore_inv {s : Storage} {pid : String} {existing : Prompt}
    (hget : Storage.get_prompt s pid = some existing) {pd : PromptCreate}
    {now : Nat} {s' : Storage} {q : Prompt}
    (h : api.updateStore s pid existing pd now = (s', .ok q)) :
    q = replacedPrompt existing pd now ∧
    s' = { s with prompts := dinsert s.prompts pid q } := by
  unfold api.updateStore at h
  rw [update_prompt_of_get_some hget] at h
  have h1 := congrArg Prod.fst h
  have h2 := congrArg Prod.snd h
  simp only [Except.ok.injEq, Option.getD_some] at h2
  subst h2
  simp only at h1
  exact ⟨rfl, h1.symm⟩

theorem update_prompt_ok {s : Storage} {pid : String} {pd : PromptCreate}
    {now : Nat} {s' : Storage} {q : Prompt}
    (h : api.update_prompt s pid pd now = (s', .ok q)) :
    ∃ existing, Storage.get_prompt s pid = some existing ∧
      q = replacedPrompt existing pd now ∧
      s' = { s with prompts := dinsert s.prompts pid q } := by
  unfold api.update_prompt at h
  cases hget : Storage.get_prompt s pid with
  | none =>
    simp only [hget] at h
    have := congrArg Prod.snd h
    simp at this
  | some existing =>
    simp only [hget] at h
    refine ⟨existing, rfl, ?_⟩
    by_cases h1 : strOptTruthy pd.collection_id = true
    · rw [if_pos h1] at h
      by_cases h2 : (Storage.get_collection s (pd.collection_id.getD (""))).isSome = true
      · rw [if_pos h2] at h
        exact updateStore_inv hget h
      · rw [if_neg h2] at h
        have := congrArg Prod.snd h
        simp at this
    · rw [if_neg h1] at h
      exact updateStore_inv hget h

theorem patchApply_inv {s : Storage} {pid : String} {existing : Prompt}
    (hget : Storage.get_prompt s pid = some existing)
    {pd : PromptUpdateOptional} {now : Nat} {s' : Storage} {q : Prompt}
    (h : patchApply s pid existing pd now = (s', .ok q)) :
    q = patchMerge existing pd now ∧
    s' = { s with prompts := dinsert s.prompts pid q } := by
  unfold patchApply at h
  rw [update_prompt_of_get_some hget] at h
  have h1 := congrArg Prod.fst h
  have h2 := congrArg Prod.snd h
  simp only [Except.ok.injEq, Option.getD_some] at h2
  subst h2
  simp only at h1
  exact ⟨rfl, h1.symm⟩

theorem patch_prompt_ok {s : Storage} {pid : String}
    {pd : PromptUpdateOptional} {now : Nat} {s' : Storage} {q : Prompt}
    (h : api.patch_prompt s pid pd now = (s', .ok q)) :
    ∃ existing, Storage.get_prompt s pid = some existing ∧
      q = patchMerge existing pd now ∧
      s' = { s with prompts := dinsert s.prompts pid q } := by
  unfold api.patch_prompt at h
  cases hget : Storage.get_prompt s pid with
  | none =>
    simp only [hget] at h
    have := congrArg Prod.snd h
    simp at this
  | some existing =>
    simp only [hget] at h
    refine ⟨existing, rfl, ?_⟩
    by_cases h1 : strOptTruthy (fieldValue pd.collection_id) = true
    · rw [if_pos h1] at h
      by_cases h2 : (Storage.get_collection s
          ((fieldValue pd.collection_id).getD (""))).isSome = true
      · rw [if_pos h2] at h
        exact patchApply_inv hget h
      · rw [if_neg h2] at h
        have := congrArg Prod.snd h
        simp at this
    · rw [if_neg h1] at h
      exact patchApply_inv hget h

/-! ## The claims -/

/-- C1 (cascade delete, Policy A): for every well-formed storage state and
every id `C` present in the collections map, `delete_collection` succeeds,
removes collection `C` and every prompt whose `collection_id` equals `C`
(afterwards `get_prompt` on such a prompt's id reports not-found), and every
prompt whose `collection_id` differs (including null) remains stored
unchanged. -/
theorem C1_cascade_delete (s : Storage) (C : String) (hInv : StorageInv s)
    (hC : (dget s.collections C).isSome = true) :
    (api.delete_collection s C).2 = .ok () ∧
    (∀ pid p, dget s.prompts pid = some p → p.collection_id = some C →
      api.get_prompt (api.delete_collection s C).1 pid =
        .error (.notFound ("Prompt not found"))) ∧
    (∀ pid p, dget s.prompts pid = some p → p.collection_id ≠ some C →
      Storage.get_prompt (api.delete_collection s C).1 pid = some p) ∧
    dget (api.delete_collection s C).1.collections C = none := by
  obtain ⟨hps, hcs, hok⟩ := delete_collection_state s C hInv.1
  refine ⟨hok.mpr hC, ?_, ?_, ?_⟩
  · intro pid p hget hcoll
    unfold api.get_prompt Storage.get_prompt
    rw [hps, dget_filter _ hInv.1.1, hget]
    simp [hcoll]
  · intro pid p hget hcoll
    unfold Storage.get_prompt
    rw [hps, dget_filter _ hInv.1.1, hget]
    simp [hcoll]
  · rw [hcs]
    exact dget_derase_self _ _

/-- Witness for C1 on a concrete two-prompt storage. -/
theorem C1_cascade_delete_witness :
    (api.delete_collection storageCascade ("c")).2 = .ok () ∧
    api.get_prompt (api.delete_collection storageCascade ("c")).1 ("p1") =
      .error (.notFound ("Prompt not found")) ∧
    Storage.get_prompt (api.delete_collection storageCascade ("c")).1 ("p2") =
      some promptOutC ∧
    dget (api.delete_collection storageCascade ("c")).1.collections ("c") =
      none := by
  obtain ⟨h1, h2, h3, h4⟩ :=
    C1_cascade_delete storageCascade ("c") (by decide) (by decide)
  exact ⟨h1, h2 ("p1") promptInC (by decide) (by decide),
    h3 ("p2") promptOutC (by decide) (by decide), h4⟩

/-- C2 (code bug): `api.delete_collection` deletes the prompts of the
requested collection BEFORE checking that the collection exists, so a
delete of a nonexistent collection id can report not-found while having
already removed prompts. On a storage (reachable via a create with
`collection_id = ""`) holding one prompt whose `collection_id` is `""` and
no collections, deleting collection `""` reports not-found yet empties the
prompt map. -/
theorem C2_notfound_still_deletes :
    api.delete_collection storageDangling ("") =
      (⟨[], []⟩, .error (.notFound ("Collection not found"))) ∧
    Storage.get_prompt storageDangling ("p1") = some promptDangling ∧
    Storage.get_prompt
      (api.delete_collection storageDangling ("")).1 ("p1") = none := by
  decide

/-- C3 counterexample: a supplied `collection_id` equal to `""` is non-null
and matches no stored collection (storage is empty), yet `create_prompt`
succeeds and stores the prompt, because Python's `if prompt_data.collection_id:`
is false for the empty string. -/
theorem C3_cex_empty_collection_id :
    payloadEmptyCid.collection_id = some ("") ∧
    ((⟨[], []⟩ : Storage).collections.map Prod.fst) = [] ∧
    (api.create_prompt ⟨[], []⟩ payloadEmptyCid ("p1") 0).2 =
      .ok ⟨("p1"), some ("t"), some ("c"), none, some (""), 0, 0⟩ ∧
    Storage.get_prompt (api.create_prompt ⟨[], []⟩ payloadEmptyCid ("p1") 0).1
      ("p1") = some ⟨("p1"), some ("t"), some ("c"), none, some (""), 0, 0⟩ := by
  decide

/-- C3 (amended): for every create request whose supplied `collection_id` is
a NON-EMPTY string that matches no stored collection, `create_prompt` fails
with 400 and leaves storage unchanged; and every successfully created prompt
with a non-null, non-empty `collection_id` references a collection that
existed at write time. -/
theorem C3_referential_rejection :
    (∀ s pd nid now cid, pd.collection_id = some cid → cid ≠ "" →
      Storage.get_collection s cid = none →
      api.create_prompt s pd nid now =
        (s, .error (.badRequest ("Collection not found")))) ∧
    (∀ s pd nid now s' p cid, api.create_prompt s pd nid now = (s', .ok p) →
      p.collection_id = some cid → cid ≠ "" →
      (Storage.get_collection s cid).isSome = true) := by
  constructor
  · intro s pd nid now cid hcid hne hnone
    unfold api.create_prompt
    have htr : strOptTruthy pd.collection_id = true := by
      rw [hcid]; simp [strOptTruthy, hne]
    rw [if_pos htr]
    have hfalse : (Storage.get_collection s
        (pd.collection_id.getD (""))).isSome = false := by
      rw [hcid, Option.getD_some, hnone]
      rfl
    rw [if_neg (by simp [hfalse])]
  · intro s pd nid now s' p cid h hp hne
    obtain ⟨hpeq, hseq⟩ := create_prompt_ok h
    have hpd : pd.collection_id = some cid := by
      rw [hpeq] at hp
      exact hp
    by_contra hnot
    unfold api.create_prompt at h
    have htr : strOptTruthy pd.collection_id = true := by
      rw [hpd]; simp [strOptTruthy, hne]
    rw [if_pos htr, hpd] at h
    rw [if_neg (by simpa using hnot)] at h
    have := congrArg Prod.snd h
    simp at this

/-- Witness for the amended C3 at a concrete nonexistent collection id. -/
theorem C3_referential_rejection_witness :
    api.create_prompt ⟨[], []⟩ payloadBadCid ("p1") 0 =
      (⟨[], []⟩, .error (.badRequest ("Collection not found"))) :=
  C3_referential_rejection.1 ⟨[], []⟩ payloadBadCid ("p1") 0 ("zz") rfl
    (by decide) rfl

/-- C4 (code bug): the PATCH handler bumps `updated_at` whenever at least one
field is supplied, even when the supplied value equals the stored one
(`if updated_fields:` tests non-emptiness of `exclude_unset`, not an actual
change), contradicting its own docstring and `test_patch_prompt_no_changes`.
Resending the stored title bumps `updated_at` from 0 to 5; an empty patch,
by contrast, leaves the record unchanged. -/
theorem C4_patch_bumps_without_change :
    Storage.get_prompt storageT ("p1") = some promptT ∧
    patchSameTitle.title = some promptT.title ∧
    (api.patch_prompt storageT ("p1") patchSameTitle 5).2 =
      .ok ⟨("p1"), some ("T"), some ("Body"), none, none, 0, 5⟩ ∧
    Storage.get_prompt (api.patch_prompt storageT ("p1") patchSameTitle 5).1
      ("p1") = some ⟨("p1"), some ("T"), some ("Body"), none, none, 0, 5⟩ ∧
    (api.patch_prompt storageT ("p1") patchEmpty 5).2 = .ok promptT ∧
    Storage.get_prompt (api.patch_prompt storageT ("p1") patchEmpty 5).1
      ("p1") = some promptT := by
  decide

theorem patchMerge_title_of_set (e : Prompt) (pd : PromptUpdateOptional)
    (now : Nat) (v : Option String) (h : pd.title = some v) :
    (patchMerge e pd now).title = v := by
  simp [patchMerge, h]

theorem patchMerge_content_of_set (e : Prompt) (pd : PromptUpdateOptional)
    (now : Nat) (v : Option String) (h : pd.content = some v) :
    (patchMerge e pd now).content = v := by
  simp [patchMerge, h]

theorem patchMerge_description_of_set (e : Prompt) (pd : PromptUpdateOptional)
    (now : Nat) (v : Option String) (h : pd.description = some v) :
    (patchMerge e pd now).description = v := by
  simp [patchMerge, h]

theorem patchMerge_collection_id_of_set (e : Prompt)
    (pd : PromptUpdateOptional) (now : Nat) (v : Option String)
    (h : pd.collection_id = some v) :
    (patchMerge e pd now).collection_id = v := by
  simp [patchMerge, h]

/-- C5 (merge normalization): validation of a PATCH payload turns every
supplied blank (empty or whitespace-only) string field into an explicit
null, and a successful merge then stores null in that field — not the blank
string. -/
theorem C5_merge_normalization :
    (∀ tRaw cRaw dRaw ciRaw pd,
      validatePromptUpdateOptional tRaw cRaw dRaw ciRaw = some pd →
      (∀ v, tRaw = some (some v) → isBlank v = true → pd.title = some none) ∧
      (∀ v, cRaw = some (some v) → isBlank v = true →
        pd.content = some none) ∧
      (∀ v, dRaw = some (some v) → isBlank v = true →
        pd.description = some none) ∧
      (∀ v, ciRaw = some (some v) → isBlank v = true →
        pd.collection_id = some none)) ∧
    (∀ s pid pd now q, api.patch_prompt s pid pd now =
        ((api.patch_prompt s pid pd now).1, .ok q) →
      Storage.get_prompt (api.patch_prompt s pid pd now).1 pid = some q ∧
      (pd.title = some none → q.title = none) ∧
      (pd.content = some none → q.content = none) ∧
      (pd.description = some none → q.description = none) ∧
      (pd.collection_id = some none → q.collection_id = none)) := by
  constructor
  · intro tRaw cRaw dRaw ciRaw pd hval
    simp only [validatePromptUpdateOptional] at hval
    split at hval
    · simp only [Option.some.injEq] at hval
      subst hval
      refine ⟨?_, ?_, ?_, ?_⟩ <;>
        (intro v hr hb; rw [hr]; simp [normalizeField, hb])
    · simp at hval
  · intro s pid pd now q h
    obtain ⟨existing, hget, hq, hs⟩ := patch_prompt_ok h
    refine ⟨?_, ?_, ?_, ?_, ?_⟩
    · rw [hs]
      unfold Storage.get_prompt
      exact dget_dinsert_self _ _ _
    · intro ht
      rw [hq]
      exact patchMerge_title_of_set _ _ _ _ ht
    · intro hc
      rw [hq]
      exact patchMerge_content_of_set _ _ _ _ hc
    · intro hd
      rw [hq]
      exact patchMerge_description_of_set _ _ _ _ hd
    · intro hci
      rw [hq]
      exact patchMerge_collection_id_of_set _ _ _ _ hci

/-- Witness for C5: a whitespace-only title is normalized to null by
validation, and patching with it stores a null title. -/
theorem C5_merge_normalization_witness :
    patchNullTitle.title = some none ∧
    Storage.get_prompt (api.patch_prompt storageT ("p1") patchNullTitle 5).1
      ("p1") = some ⟨("p1"), none, some ("Body"), none, none, 0, 5⟩ ∧
    (⟨("p1"), none, some ("Body"), none, none, 0, 5⟩ : Prompt).title =
      none := by
  have h := C5_merge_normalization
  refine ⟨(h.1 (some (some ("   "))) none none none patchNullTitle
    (by decide)).1 ("   ") rfl (by decide), ?_, rfl⟩
  exact (h.2 storageT ("p1") patchNullTitle 5
    ⟨("p1"), none, some ("Body"), none, none, 0, 5⟩ (by decide)).1

/-- C6 (code bug): the boundary checks hold — a 200-character title and a
100-character name are accepted, 201 and 101 are rejected, and empty
required fields are rejected — but a whitespace-only title, content or name
is ACCEPTED, because Pydantic's `min_length=1` counts raw characters and the
create models have no trimming validator; the repo's own
`test_create_prompt_with_whitespace_only_strings` expects rejection. -/
theorem C6_validation_boundaries :
    (validatePromptCreate (some title200) (some ("c")) none none).isSome =
      true ∧
    validatePromptCreate (some title201) (some ("c")) none none = none ∧
    (validateCollectionCreate (some name100) none).isSome = true ∧
    validateCollectionCreate (some name101) none = none ∧
    validatePromptCreate (some ("")) (some ("c")) none none = none ∧
    validatePromptCreate (some ("t")) (some ("")) none none = none ∧
    validateCollectionCreate (some ("")) none = none ∧
    (validatePromptCreate (some ("   ")) (some ("   ")) none none).isSome =
      true ∧
    (validateCollectionCreate (some ("   ")) none).isSome = true := by
  set_option maxRecDepth 4000 in decide

/-- C7 counterexample: with the non-null filter value `""`, Python's
`if collection_id:` is false, so NO filtering happens and a prompt whose
`collection_id` is null IS returned — the claim says a null `collection_id`
never matches a non-null filter value. -/
theorem C7_cex_empty_filter :
    promptUncollected.collection_id = none ∧
    api.list_prompts storageUncollected (some ("")) none =
      some [promptUncollected] := by
  refine ⟨rfl, ?_⟩
  simp [api.list_prompts, Storage.get_all_prompts, storageUncollected,
    strOptTruthy, sort_prompts_by_date, List.mergeSort_singleton]

/-- C7 (amended): when the collection filter value is non-empty, every
returned prompt carries exactly that `collection_id` (so a null
`collection_id` never matches); when the search string is non-empty, every
returned prompt matches it case-insensitively on title or (non-empty)
description; and the concrete composition scenario returns exactly
the prompt titled Python Search. -/
theorem C7_filter_pipeline :
    (∀ s cid q l, cid ≠ "" → api.list_prompts s (some cid) q = some l →
      ∀ p ∈ l, p.collection_id = some cid) ∧
    (∀ s cidOpt qs l, qs ≠ "" →
      api.list_prompts s cidOpt (some qs) = some l →
      ∀ p ∈ l, ∃ t, p.title = some t ∧
        (strHasSub (strLower qs) (strLower t) = true ∨
          ∃ d, p.description = some d ∧ d ≠ "" ∧
            strHasSub (strLower qs) (strLower d) = true)) ∧
    api.list_prompts storageDemo (some ("C")) (some ("Python")) =
      some [promptPythonSearch] := by
  refine ⟨?_, ?_, ?_⟩
  · intro s cid q l hne hlist p hp
    unfold api.list_prompts at hlist
    have htr : strOptTruthy (some cid) = true := by
      simp [strOptTruthy, hne]
    simp only [htr, if_true, Option.getD_some] at hlist
    by_cases hqt : strOptTruthy q = true
    · simp only [hqt, if_true] at hlist
      cases hsr : search_prompts (filter_prompts_by_collection
          (Storage.get_all_prompts s) cid) (q.getD ("")) with
      | none => rw [hsr] at hlist; simp at hlist
      | some res =>
        rw [hsr] at hlist
        simp only [Option.some.injEq] at hlist
        subst hlist
        have hmem : p ∈ res := (sort_desc_perm res).mem_iff.mp hp
        have hin := (searchFilter_mem hsr hmem).1
        have := (List.mem_filter.mp hin).2
        simpa using this
    · simp only [hqt, if_false, Bool.false_eq_true] at hlist
      simp only [Option.some.injEq] at hlist
      subst hlist
      have hmem : p ∈ filter_prompts_by_collection
          (Storage.get_all_prompts s) cid := (sort_desc_perm _).mem_iff.mp hp
      have := (List.mem_filter.mp hmem).2
      simpa using this
  · intro s cidOpt qs l hne hlist p hp
    unfold api.list_prompts at hlist
    have hqt : strOptTruthy (some qs) = true := by
      simp [strOptTruthy, hne]
    simp only [hqt, if_true, Option.getD_some] at hlist
    have hsearched : ∃ pl res, search_prompts pl qs = some res ∧
        l = sort_prompts_by_date res true := by
      by_cases hct : strOptTruthy cidOpt = true
      · simp only [hct, if_true] at hlist
        cases hsr : search_prompts (filter_prompts_by_collection
            (Storage.get_all_prompts s) (cidOpt.getD (""))) qs with
        | none => rw [hsr] at hlist; simp at hlist
        | some res =>
          rw [hsr] at hlist
          simp only [Option.some.injEq] at hlist
          exact ⟨_, res, hsr, hlist.symm⟩
      · simp only [hct, if_false, Bool.false_eq_true] at hlist
        cases hsr : search_prompts (Storage.get_all_prompts s) qs with
        | none => rw [hsr] at hlist; simp at hlist
        | some res =>
          rw [hsr] at hlist
          simp only [Option.some.injEq] at hlist
          exact ⟨_, res, hsr, hlist.symm⟩
    obtain ⟨pl, res, hsr, hl⟩ := hsearched
    subst hl
    have hmem : p ∈ res := (sort_desc_perm res).mem_iff.mp hp
    have hhit := (searchFilter_mem hsr hmem).2
    unfold promptSearchHit at hhit
    cases ht : p.title with
    | none => rw [ht] at hhit; simp at hhit
    | some t =>
      rw [ht] at hhit
      simp only [Option.some.injEq] at hhit
      refine ⟨t, rfl, ?_⟩
      rcases (Bool.or_eq_true _ _).mp hhit with h1 | h2
      · exact Or.inl h1
      · cases hd : p.description with
        | none => rw [hd] at h2; simp at h2
        | some d =>
          rw [hd] at h2
          obtain ⟨hd1, hd2⟩ := (Bool.and_eq_true _ _).mp h2
          refine Or.inr ⟨d, rfl, by simpa using hd1, hd2⟩
  · have hsearch : search_prompts (filter_prompts_by_collection
        (Storage.get_all_prompts storageDemo) ("C")) ("Python") =
        some [promptPythonSearch] := by decide
    unfold api.list_prompts
    rw [show strOptTruthy (some ("C")) = true from by decide,
        show strOptTruthy (some ("Python")) = true from by decide]
    simp only [if_true, Option.getD_some]
    rw [hsearch]
    simp [sort_prompts_by_date, List.mergeSort_singleton]

/-- Witness for the amended C7: the returned prompt of the concrete scenario
indeed carries collection C. -/
theorem C7_filter_pipeline_witness :
    promptPythonSearch.collection_id = some ("C") := by
  have h := C7_filter_pipeline
  exact h.1 storageDemo ("C") (some ("Python")) [promptPythonSearch]
    (by decide) h.2.2 promptPythonSearch (by simp)

/-- C8 (sort order and stability): the descending date sort returns a
permutation of its input, ordered by `created_at` newest first; prompts
sharing an identical `created_at` keep their relative input order (the
filter at any fixed timestamp is unchanged); and of two prompts created at
`t` and `t + Δ` (`Δ > 0`) the newer one comes first. -/
theorem C8_sort_stable_desc (ps : List Prompt) :
    (sort_prompts_by_date ps true).Perm ps ∧
    (sort_prompts_by_date ps true).Pairwise
      (fun a b => b.created_at ≤ a.created_at) ∧
    (∀ t, (sort_prompts_by_date ps true).filter
        (fun p => p.created_at == t) =
      ps.filter (fun p => p.created_at == t)) ∧
    (∀ p1 p2 : Prompt, p1.created_at < p2.created_at →
      sort_prompts_by_date [p1, p2] true = [p2, p1]) := by
  refine ⟨sort_desc_perm ps, sort_desc_pairwise ps,
    fun t => sort_desc_filter_created_at ps t, ?_⟩
  intro p1 p2 hlt
  have hperm := sort_desc_perm [p1, p2]
  have hpair := sort_desc_pairwise [p1, p2]
  cases hsplit : sort_prompts_by_date [p1, p2] true with
  | nil =>
    rw [hsplit] at hperm
    simpa using hperm.length_eq
  | cons a t1 =>
    cases t1 with
    | nil =>
      rw [hsplit] at hperm
      simpa using hperm.length_eq
    | cons b t2 =>
      cases t2 with
      | nil =>
        rw [hsplit] at hperm hpair
        have ha : a ∈ ([p1, p2] : List Prompt) :=
          hperm.mem_iff.mp (by simp)
        have hax : a = p1 ∨ a = p2 := by simpa using ha
        rcases hax with ha1 | ha2
        · exfalso
          rw [ha1] at hperm
          have h2 := hperm.cons_inv
          have hb : b = p2 := by simpa using List.singleton_perm.mp h2
          have hle := (List.pairwise_cons.mp hpair).1 b (by simp)
          rw [ha1, hb] at hle
          omega
        · rw [ha2] at hperm
          have hswap : ([p1, p2] : List Prompt).Perm [p2, p1] :=
            List.Perm.swap p2 p1 []
          have h2 := (hperm.trans hswap).cons_inv
          have hb : b = p1 := by simpa using List.singleton_perm.mp h2
          rw [ha2, hb]
      | cons c t3 =>
        rw [hsplit] at hperm
        have := hperm.length_eq
        simp at this

/-- Witness for C8: the newer prompt is listed before the older one. -/
theorem C8_sort_stable_desc_witness :
    sort_prompts_by_date [promptOld, promptNew] true =
      [promptNew, promptOld] :=
  (C8_sort_stable_desc []).2.2.2 promptOld promptNew (by decide)

/-- C9 (round-trip): whenever `create_prompt` succeeds, `get_prompt` on the
returned id yields the very prompt that was created; the server-assigned id
is the generated one, all supplied fields are stored unchanged, and
`created_at = updated_at = now` at creation. -/
theorem C9_create_get_roundtrip (s : Storage) (pd : PromptCreate)
    (nid : String) (now : Nat) (s' : Storage) (p : Prompt)
    (h : api.create_prompt s pd nid now = (s', .ok p)) :
    Storage.get_prompt s' p.id = some p ∧
    api.get_prompt s' p.id = .ok p ∧
    p.id = nid ∧ p.title = some pd.title ∧ p.content = some pd.content ∧
    p.description = pd.description ∧ p.collection_id = pd.collection_id ∧
    p.created_at = now ∧ p.updated_at = now := by
  obtain ⟨hpeq, hseq⟩ := create_prompt_ok h
  subst hpeq
  have hget : Storage.get_prompt s' (createdPrompt pd nid now).id =
      some (createdPrompt pd nid now) := by
    rw [hseq]
    unfold Storage.get_prompt
    exact dget_dinsert_self _ _ _
  refine ⟨hget, ?_, rfl, rfl, rfl, rfl, rfl, rfl, rfl⟩
  unfold api.get_prompt
  rw [hget]

/-- Witness for C9 on a concrete creation. -/
theorem C9_create_get_roundtrip_witness :
    Storage.get_prompt
      (⟨[(("w"), ⟨("w"), some ("t"), some ("c"), none, none, 7, 7⟩)], []⟩ :
        Storage)
      ((⟨("w"), some ("t"), some ("c"), none, none, 7, 7⟩ : Prompt).id) =
      some ⟨("w"), some ("t"), some ("c"), none, none, 7, 7⟩ ∧
    api.get_prompt
      (⟨[(("w"), ⟨("w"), some ("t"), some ("c"), none, none, 7, 7⟩)], []⟩ :
        Storage)
      ((⟨("w"), some ("t"), some ("c"), none, none, 7, 7⟩ : Prompt).id) =
      .ok ⟨("w"), some ("t"), some ("c"), none, none, 7, 7⟩ ∧
    (⟨("w"), some ("t"), some ("c"), none, none, 7, 7⟩ : Prompt).id = ("w") ∧
    (⟨("w"), some ("t"), some ("c"), none, none, 7, 7⟩ : Prompt).title =
      some payloadPlain.title ∧
    (⟨("w"), some ("t"), some ("c"), none, none, 7, 7⟩ : Prompt).content =
      some payloadPlain.content ∧
    (⟨("w"), some ("t"), some ("c"), none, none, 7, 7⟩ : Prompt).description =
      payloadPlain.description ∧
    (⟨("w"), some ("t"), some ("c"), none, none, 7, 7⟩ : Prompt).collection_id =
      payloadPlain.collection_id ∧
    (⟨("w"), some ("t"), some ("c"), none, none, 7, 7⟩ : Prompt).created_at =
      7 ∧
    (⟨("w"), some ("t"), some ("c"), none, none, 7, 7⟩ : Prompt).updated_at =
      7 :=
  C9_create_get_roundtrip ⟨[], []⟩ payloadPlain ("w") 7 _ _ (by decide)

/-- C10 (key = id invariant): every boundary operation preserves the
invariant that each prompts-map entry is keyed by the stored prompt's own
`id` and each collections-map entry by the collection's `id` (with distinct
keys); and both full replace (PUT) and merge (PATCH) keep the stored
record's `id` and `created_at` unchanged. -/
theorem C10_storage_key_invariant (s : Storage) (hInv : StorageInv s) :
    (∀ pd nid now, StorageInv (api.create_prompt s pd nid now).1) ∧
    (∀ cd nid now, StorageInv (api.create_collection s cd nid now).1) ∧
    (∀ pid pd now, StorageInv (api.update_prompt s pid pd now).1) ∧
    (∀ pid pd now, StorageInv (api.patch_prompt s pid pd now).1) ∧
    (∀ pid, StorageInv (api.delete_prompt s pid).1) ∧
    (∀ cid, StorageInv (api.delete_collection s cid).1) ∧
    (∀ pid pd now q, api.update_prompt s pid pd now =
        ((api.update_prompt s pid pd now).1, .ok q) →
      ∃ old, Storage.get_prompt s pid = some old ∧
        q.id = old.id ∧ q.created_at = old.created_at) ∧
    (∀ pid pd now q, api.patch_prompt s pid pd now =
        ((api.patch_prompt s pid pd now).1, .ok q) →
      ∃ old, Storage.get_prompt s pid = some old ∧
        q.id = old.id ∧ q.created_at = old.created_at) := by
  refine ⟨?_, ?_, ?_, ?_, ?_, ?_, ?_, ?_⟩
  · intro pd nid now
    unfold api.create_prompt
    by_cases h1 : strOptTruthy pd.collection_id = true
    · rw [if_pos h1]
      by_cases h2 : (Storage.get_collection s
          (pd.collection_id.getD (""))).isSome = true
      · rw [if_pos h2]
        unfold api.createStore Storage.create_prompt
        exact ⟨mapKeyedById_dinsert hInv.1 rfl, hInv.2⟩
      · rw [if_neg h2]
        exact hInv
    · rw [if_neg h1]
      unfold api.createStore Storage.create_prompt
      exact ⟨mapKeyedById_dinsert hInv.1 rfl, hInv.2⟩
  · intro cd nid now
    unfold api.create_collection Storage.create_collection
    exact ⟨hInv.1, mapKeyedById_dinsert hInv.2 rfl⟩
  · intro pid pd now
    cases hget : Storage.get_prompt s pid with
    | none => simp only [api.update_prompt, hget]; exact hInv
    | some existing =>
      simp only [api.update_prompt, hget]
      have hid : existing.id = pid :=
        hInv.1.2 (pid, existing) (mem_of_dget_eq_some hget)
      have hstore : StorageInv (api.updateStore s pid existing pd now).1 := by
        unfold api.updateStore
        rw [update_prompt_of_get_some hget]
        exact ⟨mapKeyedById_dinsert hInv.1 hid, hInv.2⟩
      by_cases h1 : strOptTruthy pd.collection_id = true
      · rw [if_pos h1]
        by_cases h2 : (Storage.get_collection s
            (pd.collection_id.getD (""))).isSome = true
        · rw [if_pos h2]
          exact hstore
        · rw [if_neg h2]
          exact hInv
      · rw [if_neg h1]
        exact hstore
  · intro pid pd now
    cases hget : Storage.get_prompt s pid with
    | none => simp only [api.patch_prompt, hget]; exact hInv
    | some existing =>
      simp only [api.patch_prompt, hget]
      have hid : (patchMerge existing pd now).id = pid := by
        rw [patchMerge_id]
        exact hInv.1.2 (pid, existing) (mem_of_dget_eq_some hget)
      have hstore : StorageInv (patchApply s pid existing pd now).1 := by
        unfold patchApply
        rw [update_prompt_of_get_some hget]
        exact ⟨mapKeyedById_dinsert hInv.1 hid, hInv.2⟩
      by_cases h1 : strOptTruthy (fieldValue pd.collection_id) = true
      · rw [if_pos h1]
        by_cases h2 : (Storage.get_collection s
            ((fieldValue pd.collection_id).getD (""))).isSome = true
        · rw [if_pos h2]
          exact hstore
        · rw [if_neg h2]
          exact hInv
      · rw [if_neg h1]
        exact hstore
  · intro pid
    simp only [api.delete_prompt]
    split
    · rw [delete_prompt_state]
      exact ⟨mapKeyedById_derase _ hInv.1, hInv.2⟩
    · rw [delete_prompt_state]
      exact ⟨mapKeyedById_derase _ hInv.1, hInv.2⟩
  · intro cid
    obtain ⟨hps, hcs, _⟩ := delete_collection_state s cid hInv.1
    constructor
    · rw [hps]
      exact mapKeyedById_filter _ hInv.1
    · rw [hcs]
      exact mapKeyedById_derase _ hInv.2
  · intro pid pd now q h
    obtain ⟨existing, hget, hq, _⟩ := update_prompt_ok h
    subst hq
    exact ⟨existing, hget, rfl, rfl⟩
  · intro pid pd now q h
    obtain ⟨existing, hget, hq, _⟩ := patch_prompt_ok h
    subst hq
    exact ⟨existing, hget, patchMerge_id _ _ _, patchMerge_created_at _ _ _⟩

/-- Witness for C10 at a concrete patch that rewrites a stored prompt. -/
theorem C10_storage_key_invariant_witness :
    StorageInv (api.patch_prompt storageT ("p1") patchSameTitle 5).1 :=
  (C10_storage_key_invariant storageT (by decide)).2.2.2.1 ("p1")
    patchSameTitle 5
